import Mathlib

/-!
Shallow embedding of the target-resolution and credential layer of the
zeroai repository (`src/client/auth_data.rs`, `src/client/config.rs`,
`ai/src/auth/mod.rs`), together with proofs of the specified properties.

Machine integers (`i64` epoch milliseconds) are modelled as `Int`;
`Result<T, E>` as `Except E T`; ambient effects (the process environment
read by `std::env::var`, the wall clock read by `chrono::Utc::now()`)
are passed as explicit parameters representing the value observed at the
moment the source code performs the read.
-/

namespace ZeroAI

-- ===========================================================================
-- AuthData (from src/client/auth_data.rs)
-- ===========================================================================

/-- Error type for AuthData resolution (enum `AuthDataError`). -/
inductive AuthDataError where
  | ApiKeyEnvNotFound (env_name : String)
  | AuthDataNotSingleValue
  | Custom (msg : String)
  deriving DecidableEq, Repr

/-- `AuthData` specifies either how or the key itself for authentication
(enum `AuthData`).  The Rust `Headers` and `HashMap<String, String>`
payloads are modelled as association lists of string pairs. -/
inductive AuthData where
  | FromEnv (env_name : String)
  | Key (value : String)
  | RequestOverride (url : String) (headers : List (String × String))
  | MultiKeys (data : List (String × String))
  | None
  deriving DecidableEq, Repr

/-- `AuthData::single_key_value`.  The process environment read by
`std::env::var` is passed explicitly as `env` (a set variable maps to
`some` of its value, an unset one to `none`). -/
def AuthData.single_key_value (auth : AuthData) (env : String → Option String) :
    Except AuthDataError String :=
  match auth with
  | .RequestOverride _ _ => .ok ""
  | .FromEnv env_name =>
    match env env_name with
    | some value => .ok value
    | none => .error (.ApiKeyEnvNotFound env_name)
  | .Key value => .ok value
  | .MultiKeys _ => .error .AuthDataNotSingleValue
  | .None => .error .AuthDataNotSingleValue

/-- The custom `Debug` impl for `AuthData` (the string produced by
`fmt`): every payload is printed as `REDACTED`. -/
def AuthData.debugFmt : AuthData → String
  | .FromEnv _ => "AuthData::FromEnv(REDACTED)"
  | .Key _ => "AuthData::Single(REDACTED)"
  | .MultiKeys _ => "AuthData::Multi(REDACTED)"
  | .RequestOverride _ _ => "AuthData::RequestOverride \x7b url: REDACTED, headers: REDACTED \x7d"
  | .None => "None"

/-- Two `AuthData` values carry the same variant tag (possibly different
payloads). -/
def AuthData.sameVariant : AuthData → AuthData → Bool
  | .FromEnv _, .FromEnv _ => true
  | .Key _, .Key _ => true
  | .RequestOverride _ _, .RequestOverride _ _ => true
  | .MultiKeys _, .MultiKeys _ => true
  | .None, .None => true
  | _, _ => false

-- ===========================================================================
-- Credentials (from ai/src/auth/mod.rs)
-- ===========================================================================

/-- A `serde_json::Value` stored in the open-ended `extra` map of an
OAuth credential. -/
inductive JsonValue where
  | null
  | bool (b : Bool)
  | num (n : Int)
  | str (s : String)
  deriving DecidableEq, Repr

/-- `serde_json::Value::as_str`: `Some` exactly on string values. -/
def JsonValue.as_str : JsonValue → Option String
  | .str s => some s
  | _ => none

/-- struct `ApiKeyCredential`. -/
structure ApiKeyCredential where
  key : String
  deriving DecidableEq, Repr

/-- struct `OAuthCredential`; `expires` is epoch milliseconds (`i64`),
`extra` is the flattened map of provider-specific fields. -/
structure OAuthCredential where
  refresh : String
  access : String
  expires : Int
  extra : List (String × JsonValue)
  deriving DecidableEq, Repr

/-- struct `SetupTokenCredential`. -/
structure SetupTokenCredential where
  token : String
  deriving DecidableEq, Repr

/-- enum `Credential`. -/
inductive Credential where
  | ApiKey (c : ApiKeyCredential)
  | OAuth (c : OAuthCredential)
  | SetupToken (c : SetupTokenCredential)
  deriving DecidableEq, Repr

/-- Hex digit used by serde_json `\uNNNN` escapes (lower case). -/
def hexDigit (n : Nat) : Char :=
  if n < 10 then Char.ofNat (48 + n) else Char.ofNat (87 + n)

/-- serde_json JSON string escaping of one character (compact form). -/
def escapeChar (c : Char) : List Char :=
  if c = '"' then ['\\', '"']
  else if c = '\\' then ['\\', '\\']
  else if c = '\n' then ['\\', 'n']
  else if c = '\r' then ['\\', 'r']
  else if c = '\t' then ['\\', 't']
  else if c.toNat = 8 then ['\\', 'b']
  else if c.toNat = 12 then ['\\', 'f']
  else if c.toNat < 32 then ['\\', 'u', '0', '0', hexDigit (c.toNat / 16), hexDigit (c.toNat % 16)]
  else [c]

/-- serde_json escaping of a whole string. -/
def jsonEscape (s : String) : String :=
  ⟨s.data.flatMap escapeChar⟩

/-- The string produced by
`serde_json::json!({"token": access, "projectId": pid}).to_string()`:
serde_json's default map is ordered by key, so `projectId` is serialized
before `token`. -/
def compositeSecret (access pid : String) : String :=
  "\x7b\"projectId\":\"" ++ jsonEscape pid ++ "\",\"token\":\"" ++ jsonEscape access ++ "\"\x7d"

/-- `Credential::api_key`: materialize a stored credential into the
secret actually used.  An OAuth credential with a string-valued
`projectId` extra field serializes into the composite JSON secret
instead of the bare access token. -/
def Credential.api_key : Credential → Option String
  | .ApiKey c => some c.key
  | .OAuth c =>
    match (c.extra.lookup "projectId").bind JsonValue.as_str with
    | some pid => some (compositeSecret c.access pid)
    | none => some c.access
  | .SetupToken c => some c.token

/-- `Credential::is_expired`.  The source reads the wall clock
internally (`chrono::Utc::now().timestamp_millis()`); that ambient
reading, in epoch milliseconds, is passed here explicitly as `now`. -/
def Credential.is_expired (cred : Credential) (now : Int) : Bool :=
  match cred with
  | .OAuth c => decide (now ≥ c.expires)
  | _ => false

-- ===========================================================================
-- Model Mapper and Adapter Registry
-- ===========================================================================

/-- Model identifiers handled by the mapper are modelled as character
lists, so that prefix matching can be reasoned about structurally. -/
abbrev Str := List Char

/-- Modelled from the spec: the static ordered prefix table of
`mapper::ModelMapper` (module `mapper` is declared in `src/lib.rs` and
used by `config.rs`, `server.rs` and `doctor.rs`, but its source file is
not present).  Known provider prefixes, longest first, so that
overlapping prefixes such as `zai-coding/` vs `zai/` are disambiguated. -/
def mapperTable : List Str :=
  ["zai-coding".data, "openrouter".data, "anthropic".data, "deepseek".data,
   "gemini".data, "openai".data, "ollama".data, "groq".data, "zai".data, "xai".data]

/-- Walk the prefix table in order and split on the first entry `p`
such that the id starts with `p ++ "/"`. -/
def splitGo (tbl : List Str) (s : Str) : Option (Str × Str) :=
  match tbl with
  | [] => none
  | p :: rest =>
    if (p ++ ['/']).isPrefixOf s then some (p, s.drop (p.length + 1))
    else splitGo rest s

/-- Modelled from the spec: `ModelMapper::split_id`, matching `full_id`
against the static ordered table of known provider prefixes using a
`"prefix/rest"` split on the first matching boundary, `None` when no
entry matches. -/
def ModelMapper.split_id (s : Str) : Option (Str × Str) :=
  splitGo mapperTable s

/-- enum `AdapterKind`: the providers supported by the adapter registry
(the adapter module itself is not in the provided sources; the variant
set is modelled from the spec's provider list). -/
inductive AdapterKind where
  | OpenAI
  | Anthropic
  | Gemini
  | Ollama
  | OpenRouter
  | DeepSeek
  | Groq
  | Xai
  | Zai
  | ZaiCoding
  deriving DecidableEq, Repr

/-- Modelled from the spec: `AdapterKind::from_lower_str`, mapping a
lower-case provider prefix to its adapter kind. -/
def AdapterKind.from_lower_str (s : Str) : Option AdapterKind :=
  if s = "openai".data then some .OpenAI
  else if s = "anthropic".data then some .Anthropic
  else if s = "gemini".data then some .Gemini
  else if s = "ollama".data then some .Ollama
  else if s = "openrouter".data then some .OpenRouter
  else if s = "deepseek".data then some .DeepSeek
  else if s = "groq".data then some .Groq
  else if s = "xai".data then some .Xai
  else if s = "zai".data then some .Zai
  else if s = "zai-coding".data then some .ZaiCoding
  else none

/-- Resolution errors (`crate::Error`, not in the provided sources):
the unresolvable-model case raised by `AdapterKind::from_model`. -/
inductive Error where
  | UnresolvableModel (name : Str)
  deriving DecidableEq, Repr

/-- Modelled from the spec: `AdapterKind::from_model`, heuristic
provider inference from provider-specific naming conventions (e.g.
model names starting with `gpt-` imply OpenAI); fails with an
unresolvable-model error when no convention matches. -/
def AdapterKind.from_model (name : Str) : Except Error AdapterKind :=
  if ("gpt-".data).isPrefixOf name then .ok .OpenAI
  else if ("chatgpt".data).isPrefixOf name then .ok .OpenAI
  else if ("claude".data).isPrefixOf name then .ok .Anthropic
  else if ("gemini".data).isPrefixOf name then .ok .Gemini
  else if ("glm-".data).isPrefixOf name then .ok .Zai
  else if ("deepseek".data).isPrefixOf name then .ok .DeepSeek
  else if ("grok".data).isPrefixOf name then .ok .Xai
  else .error (.UnresolvableModel name)

/-- `Endpoint`: an immutable base URL (the static/owned distinction of
the Rust type does not affect behavior and is collapsed). -/
structure Endpoint where
  base_url : String
  deriving DecidableEq, Repr

/-- Modelled from the spec: `AdapterDispatcher::default_endpoint`, the
static default base URL per provider. -/
def default_endpoint : AdapterKind → Endpoint
  | .OpenAI => ⟨"https://api.openai.com/v1/"⟩
  | .Anthropic => ⟨"https://api.anthropic.com/"⟩
  | .Gemini => ⟨"https://generativelanguage.googleapis.com/v1beta/"⟩
  | .Ollama => ⟨"http://localhost:11434/v1/"⟩
  | .OpenRouter => ⟨"https://openrouter.ai/api/v1/"⟩
  | .DeepSeek => ⟨"https://api.deepseek.com/v1/"⟩
  | .Groq => ⟨"https://api.groq.com/openai/v1/"⟩
  | .Xai => ⟨"https://api.x.ai/v1/"⟩
  | .Zai => ⟨"https://api.z.ai/api/paas/v4/"⟩
  | .ZaiCoding => ⟨"https://api.z.ai/api/coding/paas/v4/"⟩

/-- Modelled from the spec: `AdapterDispatcher::default_auth`, an
env-based `AuthData` naming the provider's canonical environment
variable. -/
def default_auth : AdapterKind → AuthData
  | .OpenAI => .FromEnv "OPENAI_API_KEY"
  | .Anthropic => .FromEnv "ANTHROPIC_API_KEY"
  | .Gemini => .FromEnv "GEMINI_API_KEY"
  | .Ollama => .FromEnv "OLLAMA_API_KEY"
  | .OpenRouter => .FromEnv "OPENROUTER_API_KEY"
  | .DeepSeek => .FromEnv "DEEPSEEK_API_KEY"
  | .Groq => .FromEnv "GROQ_API_KEY"
  | .Xai => .FromEnv "XAI_API_KEY"
  | .Zai => .FromEnv "ZAI_API_KEY"
  | .ZaiCoding => .FromEnv "ZAI_API_KEY"

/-- struct `ModelIden`: which model at which provider. -/
structure ModelIden where
  adapter_kind : AdapterKind
  model_name : Str
  deriving DecidableEq, Repr

/-- `ModelIden::new`. -/
def ModelIden.new (adapter_kind : AdapterKind) (model_name : Str) : ModelIden :=
  ⟨adapter_kind, model_name⟩

/-- struct `ServiceTarget`: the fully concrete destination of one
request. -/
structure ServiceTarget where
  endpoint : Endpoint
  auth : AuthData
  model : ModelIden
  deriving DecidableEq, Repr

/-- enum `ModelSpec`: by name, by identity, or by explicit target. -/
inductive ModelSpec where
  | Name (name : Str)
  | Iden (model : ModelIden)
  | Target (target : ServiceTarget)
  deriving DecidableEq, Repr

-- ===========================================================================
-- Target Resolver (from src/client/config.rs)
-- ===========================================================================

/-- `ClientConfig::resolve_service_target`: gets the adapter's default
auth and endpoint for the model. -/
def ClientConfig.resolve_service_target (model : ModelIden) : Except Error ServiceTarget :=
  .ok { endpoint := default_endpoint model.adapter_kind
        auth := default_auth model.adapter_kind
        model := model }

/-- The shared fallback tail of the `Name` arm of
`resolve_model_spec`: infer the adapter from the full name via
`AdapterKind::from_model` (reached both when the mapper yields no split
and when the split's prefix is not a known provider). -/
def resolve_name_inference (name : Str) : Except Error (ServiceTarget × Option Str) :=
  match AdapterKind.from_model name with
  | .ok adapter_kind =>
    match ClientConfig.resolve_service_target (ModelIden.new adapter_kind name) with
    | .ok target => .ok (target, none)
    | .error e => .error e
  | .error e => .error e

/-- `ClientConfig::resolve_model_spec`: resolves a `ModelSpec` to a
`ServiceTarget` plus the provider prefix used (for response
backfill). -/
def ClientConfig.resolve_model_spec (spec : ModelSpec) : Except Error (ServiceTarget × Option Str) :=
  match spec with
  | .Name name =>
    match ModelMapper.split_id name with
    | some (provider, short) =>
      match AdapterKind.from_lower_str provider with
      | some adapter_kind =>
        match ClientConfig.resolve_service_target (ModelIden.new adapter_kind short) with
        | .ok target => .ok (target, some provider)
        | .error e => .error e
      | none => resolve_name_inference name
    | none => resolve_name_inference name
  | .Iden model =>
    match ClientConfig.resolve_service_target model with
    | .ok target => .ok (target, none)
    | .error e => .error e
  | .Target target => .ok (target, none)

-- ===========================================================================
-- Helper lemmas
-- ===========================================================================

theorem prefix_take_prefix (a b : List Char) (k : Nat) (h : a <+: b) :
    a.take k <+: b.take k := by
  obtain ⟨t, rfl⟩ := h
  rw [List.take_append_eq_append_take]
  exact List.prefix_append _ _

theorem not_prefix_of_append (a b m : List Char)
    (h : ¬ (a.take b.length <+: b)) : ¬ (a <+: b ++ m) := by
  intro hc
  have ht := prefix_take_prefix a (b ++ m) b.length hc
  rw [List.take_left] at ht
  exact h ht

theorem splitGo_append (tbl : List Str) (p m : Str)
    (hnp : ∀ q ∈ tbl, q ≠ p → ¬ ((q ++ ['/']).take (p.length + 1) <+: p ++ ['/']))
    (hmem : p ∈ tbl) :
    splitGo tbl ((p ++ ['/']) ++ m) = some (p, m) := by
  induction tbl with
  | nil => cases hmem
  | cons q rest ih =>
    by_cases hq : q = p
    · subst hq
      rw [splitGo]
      rw [if_pos (by rw [List.isPrefixOf_iff_prefix]; exact List.prefix_append _ _)]
      congr 1
      congr 1
      rw [show q.length + 1 = (q ++ ['/']).length by simp]
      exact List.drop_left _ _
    · have hfalse : ((q ++ ['/']).isPrefixOf ((p ++ ['/']) ++ m)) = false := by
        rw [← Bool.not_eq_true, List.isPrefixOf_iff_prefix]
        have hl : (p ++ ['/']).length = p.length + 1 := by simp
        exact not_prefix_of_append _ _ _ (by rw [hl]; exact hnp q (List.mem_cons_self _ _) hq)
      rw [splitGo, hfalse]
      simp only [Bool.false_eq_true, if_false]
      have hmem' : p ∈ rest := by
        rcases List.mem_cons.mp hmem with h | h
        · exact absurd h.symm hq
        · exact h
      exact ih (fun r hr => hnp r (List.mem_cons_of_mem _ hr)) hmem'

theorem splitGo_none (tbl : List Str) (s : Str) (hs : ('/' : Char) ∉ s) :
    splitGo tbl s = none := by
  induction tbl with
  | nil => rfl
  | cons q rest ih =>
    have hfalse : ((q ++ ['/']).isPrefixOf s) = false := by
      rw [← Bool.not_eq_true, List.isPrefixOf_iff_prefix]
      intro hc
      exact hs (hc.sublist.subset (List.mem_append_right _ (List.mem_singleton_self _)))
    rw [splitGo, hfalse]
    simp only [Bool.false_eq_true, if_false]
    exact ih

-- ===========================================================================
-- Claim theorems
-- ===========================================================================

/-- C9: for every known provider prefix `p` and short name `m`, the
Mapper splits `p ++ "/" ++ m` into `Some (p, m)` — matching the ordered
table longest prefix first, so overlapping prefixes such as
`zai-coding/` vs `zai/` are disambiguated — and for any string with no
matching prefix and no separator, `split_id` returns `None`. -/
theorem mapper_split_spec :
    (∀ p ∈ mapperTable, ∀ m : Str, ModelMapper.split_id (p ++ '/' :: m) = some (p, m)) ∧
    (∀ s : Str, ('/' : Char) ∉ s → ModelMapper.split_id s = none) := by
  constructor
  · intro p hp m
    have hform : p ++ '/' :: m = (p ++ ['/']) ++ m := by simp
    rw [hform]
    rw [ModelMapper.split_id]
    fin_cases hp <;>
      exact splitGo_append _ _ _ (by decide) (by decide)
  · intro s hs
    exact splitGo_none mapperTable s hs

/-- Witness for C9: the overlapping-prefix id `zai-coding/glm-4.6`
splits at the longest prefix, and the separator-free `gpt-4o` yields
`none`. -/
theorem mapper_split_spec_witness :
    ModelMapper.split_id ("zai-coding".data ++ '/' :: "glm-4.6".data) =
      some ("zai-coding".data, "glm-4.6".data) ∧
    ModelMapper.split_id "gpt-4o".data = none :=
  ⟨mapper_split_spec.1 _ (by decide) _, mapper_split_spec.2 _ (by decide)⟩

/-- C2: resolving `ModelSpec::Target(t)` returns exactly `t` unchanged,
never fails, and the returned provider-prefix output is `None`. -/
theorem resolve_target_passthrough (t : ServiceTarget) :
    ClientConfig.resolve_model_spec (.Target t) = .ok (t, none) :=
  rfl

/-- C1: `Name` resolution first consults the Mapper: a split whose
prefix maps to a known provider yields that provider's default
endpoint/auth with the short model name and `Some` of the used prefix;
with no known-provider match it falls back to heuristic inference from
the full name with prefix `None`; if inference also fails, resolution
fails with the unresolvable-model error. -/
theorem resolve_name_spec :
    (∀ (name pfx short : Str) (k : AdapterKind),
       ModelMapper.split_id name = some (pfx, short) →
       AdapterKind.from_lower_str pfx = some k →
       ClientConfig.resolve_model_spec (.Name name) =
         .ok (⟨default_endpoint k, default_auth k, ModelIden.new k short⟩, some pfx)) ∧
    (∀ (name : Str) (k : AdapterKind),
       (∀ pfx short, ModelMapper.split_id name = some (pfx, short) →
          AdapterKind.from_lower_str pfx = none) →
       AdapterKind.from_model name = .ok k →
       ClientConfig.resolve_model_spec (.Name name) =
         .ok (⟨default_endpoint k, default_auth k, ModelIden.new k name⟩, none)) ∧
    (∀ (name : Str) (e : Error),
       (∀ pfx short, ModelMapper.split_id name = some (pfx, short) →
          AdapterKind.from_lower_str pfx = none) →
       AdapterKind.from_model name = .error e →
       ClientConfig.resolve_model_spec (.Name name) = .error e) := by
  refine ⟨?_, ?_, ?_⟩
  · intro name pfx short k h1 h2
    simp [ClientConfig.resolve_model_spec, h1, h2, ClientConfig.resolve_service_target,
      ModelIden.new]
  · intro name k hnone hfm
    cases hsplit : ModelMapper.split_id name with
    | none =>
      simp [ClientConfig.resolve_model_spec, hsplit, resolve_name_inference, hfm,
        ClientConfig.resolve_service_target, ModelIden.new]
    | some pr =>
      have := hnone pr.1 pr.2 (by rw [hsplit])
      simp [ClientConfig.resolve_model_spec, hsplit, this, resolve_name_inference, hfm,
        ClientConfig.resolve_service_target, ModelIden.new]
  · intro name e hnone hfm
    cases hsplit : ModelMapper.split_id name with
    | none =>
      simp [ClientConfig.resolve_model_spec, hsplit, resolve_name_inference, hfm]
    | some pr =>
      have := hnone pr.1 pr.2 (by rw [hsplit])
      simp [ClientConfig.resolve_model_spec, hsplit, this, resolve_name_inference, hfm]

/-- Witness for C1: `zai/glm-4.6` routes through the mapper to the Zai
defaults with prefix `Some "zai"`; `gpt-4o` has no prefix and infers
OpenAI with prefix `None`; `mystery-model` resolves to the
unresolvable-model error. -/
theorem resolve_name_spec_witness :
    ClientConfig.resolve_model_spec (.Name ("zai/glm-4.6".data)) =
      .ok (⟨default_endpoint .Zai, default_auth .Zai, ModelIden.new .Zai "glm-4.6".data⟩,
        some "zai".data) ∧
    ClientConfig.resolve_model_spec (.Name ("gpt-4o".data)) =
      .ok (⟨default_endpoint .OpenAI, default_auth .OpenAI, ModelIden.new .OpenAI "gpt-4o".data⟩,
        none) ∧
    ClientConfig.resolve_model_spec (.Name ("mystery-model".data)) =
      .error (.UnresolvableModel "mystery-model".data) := by
  refine ⟨?_, ?_, ?_⟩
  · exact resolve_name_spec.1 _ _ _ _ (by decide) (by decide)
  · refine resolve_name_spec.2.1 _ _ ?_ rfl
    intro pfx short h
    rw [show ModelMapper.split_id "gpt-4o".data = none from by decide] at h
    exact Option.noConfusion h
  · refine resolve_name_spec.2.2 _ _ ?_ rfl
    intro pfx short h
    rw [show ModelMapper.split_id "mystery-model".data = none from by decide] at h
    exact Option.noConfusion h

theorem escapeChar_length_pos (c : Char) : 0 < (escapeChar c).length := by
  unfold escapeChar
  repeat' split
  all_goals simp

theorem length_le_jsonEscape (s : String) : s.length ≤ (jsonEscape s).length := by
  show s.data.length ≤ (s.data.flatMap escapeChar).length
  induction s.data with
  | nil => simp
  | cons c cs ih =>
    simp only [List.flatMap_cons, List.length_append, List.length_cons]
    have := escapeChar_length_pos c
    omega

theorem compositeSecret_ne_access (access pid : String) :
    compositeSecret access pid ≠ access := by
  intro h
  have hlen := congrArg String.length h
  simp only [compositeSecret, String.length_append] at hlen
  have h1 := length_le_jsonEscape access
  have h2 : (0 : Nat) ≤ (jsonEscape pid).length := Nat.zero_le _
  have hc1 : ("\x7b\"projectId\":\"" : String).length = 14 := rfl
  have hc2 : ("\",\"token\":\"" : String).length = 11 := rfl
  have hc3 : ("\"\x7d" : String).length = 2 := rfl
  omega

/-- C3: an OAuth credential is expired iff the clock reading (epoch
milliseconds) is greater than or equal to its `expires` field (equality
counts as expired); ApiKey and SetupToken credentials never expire. -/
theorem is_expired_spec :
    (∀ (c : OAuthCredential) (now : Int),
       (Credential.OAuth c).is_expired now = true ↔ c.expires ≤ now) ∧
    (∀ (c : ApiKeyCredential) (now : Int), (Credential.ApiKey c).is_expired now = false) ∧
    (∀ (c : SetupTokenCredential) (now : Int),
       (Credential.SetupToken c).is_expired now = false) := by
  refine ⟨?_, ?_, ?_⟩
  · intro c now
    simp [Credential.is_expired, ge_iff_le]
  · intro c now
    rfl
  · intro c now
    rfl

/-- C4 counterexample: `is_expired` takes no `now` parameter in the
source — the clock is read internally from the ambient wall clock — so
the result for one and the same credential varies with the ambient
clock reading, refuting "same result regardless of the ambient wall
clock". -/
theorem is_expired_ambient_clock_counterexample :
    (Credential.OAuth { refresh := "r", access := "a", expires := 5, extra := [] }).is_expired 0
      = false ∧
    (Credential.OAuth { refresh := "r", access := "a", expires := 5, extra := [] }).is_expired 10
      = true :=
  ⟨rfl, rfl⟩

/-- C4 amended: the expiry check is a pure, deterministic function of
the credential's `expires` field and the clock reading taken at call
time — it does not depend on any secret field — but that reading is the
ambient wall clock, taken internally, not an injected parameter. -/
theorem is_expired_deterministic (c₁ c₂ : OAuthCredential) (now : Int)
    (h : c₁.expires = c₂.expires) :
    (Credential.OAuth c₁).is_expired now = (Credential.OAuth c₂).is_expired now := by
  simp [Credential.is_expired, h]

/-- Witness for the amended C4: two OAuth credentials sharing an expiry
but with different secrets and extra fields agree on expiry at a fixed
clock reading. -/
theorem is_expired_deterministic_witness :
    (Credential.OAuth { refresh := "r1", access := "a1", expires := 5, extra := [] }).is_expired 7
      = (Credential.OAuth
          { refresh := "r2", access := "a2", expires := 5,
            extra := [("projectId", JsonValue.str "p")] }).is_expired 7 :=
  is_expired_deterministic _ _ 7 rfl

/-- C5: resolving the single secret of `FromEnv(x)` reads the
environment at resolution time: an unset variable fails with a
missing-environment-variable error naming `x`; a variable set to `v`
resolves to exactly `v`. -/
theorem from_env_resolution (env : String → Option String) (x : String) :
    (env x = none →
       (AuthData.FromEnv x).single_key_value env = .error (.ApiKeyEnvNotFound x)) ∧
    (∀ v, env x = some v → (AuthData.FromEnv x).single_key_value env = .ok v) := by
  constructor
  · intro h
    simp [AuthData.single_key_value, h]
  · intro v h
    simp [AuthData.single_key_value, h]

/-- Witness for C5: with `X` set to `abc` resolution yields `abc`; with
the environment empty it fails naming `X`. -/
theorem from_env_resolution_witness :
    (AuthData.FromEnv "X").single_key_value
        (fun s => if s = "X" then some "abc" else none) = .ok "abc" ∧
    (AuthData.FromEnv "X").single_key_value (fun _ => none) =
      .error (.ApiKeyEnvNotFound "X") :=
  ⟨(from_env_resolution (fun s => if s = "X" then some "abc" else none) "X").2 "abc" (by simp),
   (from_env_resolution (fun _ => none) "X").1 rfl⟩

/-- C6: for every `RequestOverride` (any url and headers) and any
environment, single-secret resolution succeeds with the empty string —
in particular it never produces the not-a-single-value error. -/
theorem request_override_empty_secret (url : String) (headers : List (String × String))
    (env : String → Option String) :
    (AuthData.RequestOverride url headers).single_key_value env = .ok "" :=
  rfl

/-- C7: single-secret resolution returns `Ok v` for every `Key v`, and
produces the not-a-single-value error exactly for the `MultiKeys` and
`None` variants and for no other variant. -/
theorem single_key_value_exactness :
    (∀ (env : String → Option String) (v : String),
       (AuthData.Key v).single_key_value env = .ok v) ∧
    (∀ (env : String → Option String) (a : AuthData),
       a.single_key_value env = .error .AuthDataNotSingleValue ↔
         ((∃ m, a = .MultiKeys m) ∨ a = .None)) := by
  constructor
  · intro env v
    rfl
  · intro env a
    cases a with
    | FromEnv n =>
      cases h : env n <;> simp [AuthData.single_key_value, h]
    | Key v => simp [AuthData.single_key_value]
    | RequestOverride u hs => simp [AuthData.single_key_value]
    | MultiKeys m => simp [AuthData.single_key_value]
    | None => simp [AuthData.single_key_value]

/-- C8: materializing an OAuth credential whose extra map holds a
string-valued `projectId` yields the composite JSON secret — not the
bare access token — while one without such an entry yields the bare
access token; ApiKey materializes to its key and SetupToken to its
token. -/
theorem api_key_materialization :
    (∀ (c : OAuthCredential) (pid : String),
       c.extra.lookup "projectId" = some (JsonValue.str pid) →
       (Credential.OAuth c).api_key = some (compositeSecret c.access pid) ∧
       compositeSecret c.access pid ≠ c.access) ∧
    (∀ (c : OAuthCredential),
       (∀ pid, c.extra.lookup "projectId" ≠ some (JsonValue.str pid)) →
       (Credential.OAuth c).api_key = some c.access) ∧
    (∀ (c : ApiKeyCredential), (Credential.ApiKey c).api_key = some c.key) ∧
    (∀ (c : SetupTokenCredential), (Credential.SetupToken c).api_key = some c.token) := by
  refine ⟨?_, ?_, ?_, ?_⟩
  · intro c pid h
    refine ⟨?_, compositeSecret_ne_access c.access pid⟩
    simp [Credential.api_key, h, JsonValue.as_str]
  · intro c h
    have hbind : (c.extra.lookup "projectId").bind JsonValue.as_str = none := by
      cases hl : c.extra.lookup "projectId" with
      | none => rfl
      | some v =>
        cases v with
        | str s => exact absurd hl (h s)
        | null => rfl
        | bool b => rfl
        | num n => rfl
    simp [Credential.api_key, hbind]
  · intro c
    rfl
  · intro c
    rfl

/-- Witness for C8: a concrete OAuth credential with a `projectId`
extra field materializes to the composite secret, and one with an empty
extra map materializes to the bare access token. -/
theorem api_key_materialization_witness :
    (Credential.OAuth
        { refresh := "r", access := "tok", expires := 0,
          extra := [("projectId", JsonValue.str "proj-1")] }).api_key =
      some (compositeSecret "tok" "proj-1") ∧
    (Credential.OAuth
        { refresh := "r", access := "tok", expires := 0, extra := [] }).api_key =
      some "tok" :=
  ⟨(api_key_materialization.1
      { refresh := "r", access := "tok", expires := 0,
        extra := [("projectId", JsonValue.str "proj-1")] } "proj-1" (by simp)).1,
   api_key_materialization.2.1
      { refresh := "r", access := "tok", expires := 0, extra := [] }
      (fun pid h => Option.noConfusion h)⟩

/-- C10: the Debug formatting of `AuthData` never includes the secret
payload — two values of the same variant format identically. -/
theorem debug_redacts_secrets (a b : AuthData) (h : a.sameVariant b = true) :
    a.debugFmt = b.debugFmt := by
  cases a <;> cases b <;> simp_all [AuthData.sameVariant, AuthData.debugFmt]

/-- Witness for C10: two `Key` values with different secrets have the
same Debug output. -/
theorem debug_redacts_secrets_witness :
    (AuthData.Key "sk-secret-1").debugFmt = (AuthData.Key "sk-secret-2").debugFmt :=
  debug_redacts_secrets (AuthData.Key "sk-secret-1") (AuthData.Key "sk-secret-2") rfl

end ZeroAI
